import Mathlib

/-!
Verification of the tevclient wire-protocol encoder (westlicht/tevclient).

The C++ sources are shallowly embedded: bytes are modelled as `Nat` values
below 256, machine integers as `Int`/`Nat` with explicit reduction modulo
`2^w` where the C++ code truncates, IEEE-754 floats as their 32-bit bit
patterns (the encoder only ever memcpy-s their bytes, so the bit pattern is
the whole story), and the fallible packet builders return the buffer
contents together with an optional thrown-exception message.
-/

namespace Tev

/-- Little-endian byte decomposition: `toLE w v` is the list of the `w`
low-order bytes of `v`, least significant first.  This is how
`IpcPacket::OStream::operator<<(T)` lays an unsigned integer out in memory
on a little-endian host. -/
def toLE : Nat → Nat → List Nat
  | 0, _ => []
  | w + 1, v => (v % 256) :: toLE w (v / 256)

/-- Bytes of a signed C++ integer of width `w` bytes: twos complement,
i.e. the value reduced modulo `256^w`, little endian. -/
def intBytes (w : Nat) (v : Int) : List Nat :=
  toLE w (v.emod ((256 : Int) ^ w)).toNat

/-- Embeds `IpcPacket::OStream::updateSize`: overwrite the first four bytes of the
buffer with the current write index (which always equals the buffer length,
since every write appends at the end) as a `uint32_t`. -/
def updateSize (d : List Nat) : List Nat :=
  toLE 4 d.length ++ d.drop 4

/-- One `OStream` write: append the given bytes at the write index and then
run `updateSize`, exactly as every `operator<<` / `write` overload does. -/
def wr (d bs : List Nat) : List Nat :=
  updateSize (d ++ bs)

/-- The `OStream` constructor: `*this << (uint32_t)0` reserves four bytes
for the size prefix (and `updateSize` immediately patches them to 4). -/
def osInit : List Nat :=
  wr [] (toLE 4 0)

/-- Embeds `OStream::operator<<(bool)`: one byte, `true -> 1`, `false -> 0`. -/
def wrBool (d : List Nat) (b : Bool) : List Nat :=
  wr d [if b then 1 else 0]

/-- Embeds `OStream::operator<<(T)` at `T = char` (used per character of a
string): one byte. -/
def wrCharByte (d : List Nat) (c : Char) : List Nat :=
  wr d [c.toNat % 256]

/-- Embeds `OStream::operator<<(const std::string&)`: every character in order,
then exactly one `\0` terminator. -/
def wrString (d : List Nat) (s : String) : List Nat :=
  wr (s.data.foldl wrCharByte d) [0]

/-- Embeds `OStream::operator<<(T)` at `T = int32_t`. -/
def wrI32 (d : List Nat) (v : Int) : List Nat :=
  wr d (intBytes 4 v)

/-- Embeds `OStream::operator<<(T)` at `T = int64_t`. -/
def wrI64 (d : List Nat) (v : Int) : List Nat :=
  wr d (intBytes 8 v)

/-- Embeds `OStream::operator<<(std::vector<std::string>)`: elementwise. -/
def wrStringList (d : List Nat) (ss : List String) : List Nat :=
  ss.foldl wrString d

/-- Embeds `OStream::operator<<(std::vector<int64_t>)`: elementwise. -/
def wrI64List (d : List Nat) (vs : List Int) : List Nat :=
  vs.foldl wrI64 d

/-- The flat bytes of a null-terminated string as `operator<<` emits them. -/
def strBytes (s : String) : List Nat :=
  s.data.map (fun c => c.toNat % 256) ++ [0]

/-- The single byte `operator<<(bool)` emits. -/
def boolByte (b : Bool) : List Nat :=
  [if b then 1 else 0]

/-- Normal form of a finished packet: 4-byte little-endian length prefix
(counting itself) followed by the payload bytes. -/
def mkFrame (p : List Nat) : List Nat :=
  toLE 4 (4 + p.length) ++ p

/-- Embeds `IpcPacket::setOpenImage`: kind tag `OpenImageV2 = 7`, grab-focus flag,
image path, channel selector. -/
def setOpenImage (imagePath channelSelector : String) (grabFocus : Bool) : List Nat :=
  wrString (wrString (wrBool (wr osInit [7]) grabFocus) imagePath) channelSelector

/-- Embeds `IpcPacket::setReloadImage`: kind tag `ReloadImage = 1`, grab-focus
flag, image name. -/
def setReloadImage (imageName : String) (grabFocus : Bool) : List Nat :=
  wrString (wrBool (wr osInit [1]) grabFocus) imageName

/-- Embeds `IpcPacket::setCloseImage`: kind tag `CloseImage = 2`, image name. -/
def setCloseImage (imageName : String) : List Nat :=
  wrString (wr osInit [2]) imageName

/-- Embeds `ChannelDesc` as used by `IpcPacket::setUpdateImage` (its fields are
copied into `std::vector<std::string>` / `std::vector<int64_t>`s): a
channel name plus the offset and stride, in floats, of the samples of that channel within the flat pixel buffer. -/
structure ChannelDesc where
  name : String
  offset : Int
  stride : Int
deriving DecidableEq, Repr

/-- Embeds `size_t nPixels = width * height`: the `int32_t` product converted to
`size_t`, i.e. sign-extended and reduced modulo `2^64`. -/
def nPixelsOf (width height : Int) : Nat :=
  ((width * height).emod ((2 : Int) ^ 64)).toNat

/-- The required extent of one channel,
`(size_t)(channelOffsets[c] + (nPixels - 1) * channelStrides[c] + 1)`:
`nPixels - 1` wraps in `size_t`, the `int64_t` operands are converted to
`uint64_t`, and the whole expression is reduced modulo `2^64`. -/
def channelExtent (nPixels : Nat) (d : ChannelDesc) : Nat :=
  ((d.offset + ((nPixels : Int) - 1) * d.stride + 1).emod ((2 : Int) ^ 64)).toNat

/-- Embeds `stridedImageDataSize`: `std::max` folded over the channels starting
from zero. -/
def stridedImageDataSize (nPixels : Nat) (descs : List ChannelDesc) : Nat :=
  descs.foldl (fun acc d => max acc (channelExtent nPixels d)) 0

/-- Embeds `IpcPacket::setUpdateImage` (the `const float*` overload used by
`Client::updateImage`).  Pixel values are carried as 32-bit IEEE bit
patterns, since `payload.write` only memcpy-s their bytes.  The result is
the packet buffer `mPayload` paired with the thrown `std::runtime_error`
message, if any: on the buffer-size mismatch the header bytes written so
far remain in `mPayload` and the exception propagates. -/
def setUpdateImage (imageName : String) (grabFocus : Bool)
    (channelDescs : List ChannelDesc) (x y width height : Int)
    (imageData : List Nat) : List Nat × Option String :=
  if channelDescs = [] then
    ([], some "UpdateImage IPC packet must have a non-zero channel count.")
  else
    let nChannels : Int := channelDescs.length
    let channelNames := channelDescs.map (·.name)
    let channelOffsets := channelDescs.map (·.offset)
    let channelStrides := channelDescs.map (·.stride)
    let header :=
      wrI64List
        (wrI64List
          (wrI32 (wrI32 (wrI32 (wrI32
            (wrStringList
              (wrI32 (wrString (wrBool (wr osInit [6]) grabFocus) imageName) nChannels)
              channelNames)
            x) y) width) height)
          channelOffsets)
        channelStrides
    let nPixels := nPixelsOf width height
    let required := stridedImageDataSize nPixels channelDescs
    if imageData.length ≠ required then
      (header, some "UpdateImage IPC packet data size does not match specified dimensions, offset, and stride.")
    else
      (wr header (imageData.map (fun v => toLE 4 v)).flatten, none)

/-- Embeds `IpcPacket::setCreateImage`: kind tag `CreateImage = 4`, grab-focus
flag, image name, width, height, channel count, channel names in order.
Throws when the channel-name count disagrees with `nChannels`. -/
def setCreateImage (imageName : String) (grabFocus : Bool)
    (width height nChannels : Int) (channelNames : List String) :
    List Nat × Option String :=
  if (channelNames.length : Int) ≠ nChannels then
    ([], some "CreateImage IPC packet channel names size does not match number of channels.")
  else
    (wrStringList
      (wrI32 (wrI32 (wrI32 (wrString (wrBool (wr osInit [4]) grabFocus) imageName) width) height) nChannels)
      channelNames, none)

/-- Embeds `VgCommand` from the header: the numeric tag of the command kind, the
number of meaningful floats in `data` (`dataCount`), and those floats as
32-bit IEEE bit patterns. -/
structure VgCommand where
  type : Nat
  dataCount : Nat
  data : List Nat
deriving DecidableEq, Repr

/-- Embeds `VgCommand::beginPath()`: kind `BeginPath = 6`, no payload. -/
def VgCommand.beginPath : VgCommand := ⟨6, 0, []⟩

/-- Embeds `VgCommand::moveTo(p)`: kind `MoveTo = 10`, payload `p.x, p.y` (bit
patterns). -/
def VgCommand.moveTo (x y : Nat) : VgCommand := ⟨10, 2, [x, y]⟩

/-- Embeds `VgCommand::lineTo(p)`: kind `LineTo = 11`, payload `p.x, p.y` (bit
patterns). -/
def VgCommand.lineTo (x y : Nat) : VgCommand := ⟨11, 2, [x, y]⟩

/-- Embeds `VgCommand::stroke()`: kind `Stroke = 5`, no payload. -/
def VgCommand.stroke : VgCommand := ⟨5, 0, []⟩

/-- Embeds `IpcPacket::setVectorGraphics`.  For each command the code executes
`payload << command.type; payload << command.data;`.  `command.data` has
type `float[8]`, so passing it by value to `operator<<(T var)` deduces
`T = float*` via array-to-pointer decay: the write stores the 8 bytes of
the address of the array, not the floats, and `dataCount` is never consulted.
The unknowable address bytes of each command are supplied as the parallel
list `ptrs` (one 8-byte block per command). -/
def setVectorGraphics (imageName : String) (grabFocus append : Bool)
    (commands : List VgCommand) (ptrs : List (List Nat)) : List Nat :=
  (commands.zip ptrs).foldl
    (fun acc cp => wr (wr acc [cp.1.type % 256]) cp.2)
    (wrI32 (wrBool (wrString (wrBool (wr osInit [8]) grabFocus) imageName) append)
      (commands.length : Int))

/-- Modelled from the spec: the byte length of one vector-graphics command
entry as §3/§4.2 of the spec prescribe it — a 1-byte kind tag followed by
the kind-determined number of 32-bit floats. -/
def specVgEntryLength (c : VgCommand) : Nat :=
  1 + 4 * c.dataCount

/-- Read a null-terminated string off the front of a byte list, returning
it together with the remaining bytes (decoder side of the wire spec). -/
def readCString : List Nat → Option (String × List Nat)
  | [] => none
  | b :: rest =>
    if b = 0 then some ("", rest)
    else
      match readCString rest with
      | some (s, r) => some (String.mk (Char.ofNat b :: s.data), r)
      | none => none

/-- Decoder for the current OpenImage variant per the wire layout: 4-byte
length prefix (checked against the total frame size), 1-byte kind tag that
must be `OpenImageV2 = 7`, grab-focus byte, null-terminated path,
null-terminated selector, end of frame. -/
def decodeOpenImage (frame : List Nat) : Option (String × String × Bool) :=
  if frame.take 4 = toLE 4 frame.length then
    match frame.drop 4 with
    | kind :: gf :: rest =>
      if kind = 7 then
        match readCString rest with
        | some (path, r1) =>
          match readCString r1 with
          | some (sel, r2) => if r2 = [] then some (path, sel, gf = 1) else none
          | none => none
        | none => none
      else none
    | _ => none
  else none

/-- The error codes.  The shipped header enumerates
`Ok, NotConnected, SocketError, ArgumentError`; the implementation file
additionally refers to `Error::ImageError` for its validation failures, so
the embedding carries both. -/
inductive Error where
  | Ok
  | NotConnected
  | SocketError
  | ArgumentError
  | ImageError
deriving DecidableEq, Repr

/-- The outcome of one public operation: a returned error code, or a
`std::runtime_error` escaping from the packet builder. -/
inductive OpResult where
  | ret (e : Error)
  | exn (msg : String)
deriving DecidableEq, Repr

/-- The session state held by `Client::Impl` that the claims talk about:
whether a socket is open, and the stored last error kind and message. -/
structure ImplState where
  connected : Bool
  lastError : Error
  lastErrorMsg : String
deriving DecidableEq, Repr

/-- Embeds `Client::Impl::setLastError`: overwrite the stored kind and message
and return the kind. -/
def setLastErr (st : ImplState) (e : Error) (msg : String) : ImplState :=
  { st with lastError := e, lastErrorMsg := msg }

/-- Outcome of one entry of the `addrinfo` list inside
`Client::Impl::connect`: `socket()` fails, `connect()` fails, or both
succeed. -/
inductive AddrStep where
  | socketFail (msg : String)
  | connectFail (msg : String)
  | success
deriving DecidableEq, Repr

/-- The environment the socket layer presents to one operation: the result
of `getaddrinfo` (an error message, or the list of address attempts) and
whether `::send` transmits the full frame. -/
structure NetEnv where
  resolv : Except String (List AddrStep)
  sendOk : Bool

/-- The address loop of `Client::Impl::connect`: each failing attempt
records a `SocketError` via `setLastError` and continues; the first
success opens the socket and breaks. -/
def connectLoop : List AddrStep → ImplState → ImplState
  | [], st => st
  | a :: rest, st =>
    match a with
    | .socketFail m => connectLoop rest (setLastErr st .SocketError ("socket() failed: " ++ m))
    | .connectFail m => connectLoop rest (setLastErr st .SocketError ("connect() failed: " ++ m))
    | .success => { st with connected := true }

/-- Embeds `Client::Impl::connect`: no-op when connected; a `getaddrinfo` failure
returns `SocketError`; otherwise the last error is reset to `Ok`/empty,
the address loop runs, and the stored last error is returned. -/
def implConnect (env : NetEnv) (st : ImplState) : ImplState × Error :=
  if st.connected then (st, .Ok)
  else
    match env.resolv with
    | .error m => let st1 := setLastErr st .SocketError ("getaddrinfo() failed: " ++ m); (st1, .SocketError)
    | .ok attempts =>
      let st1 := connectLoop attempts (setLastErr st .Ok "")
      (st1, st1.lastError)

/-- The `::send` call at the end of `Client::Impl::send`: it transmits the
whole frame only over an open socket in a willing environment; otherwise
`setLastError(SocketError, ...)`.  The third component records the frames
handed to `::send`. -/
def implSendRaw (env : NetEnv) (st : ImplState) (frame : List Nat) :
    ImplState × Error × List (List Nat) :=
  if st.connected && env.sendOk then (st, .Ok, [frame])
  else (setLastErr st .SocketError "socket send() failed", .SocketError, [frame])

/-- Embeds `Client::Impl::send`: connect first when not connected, propagating a
failed connect without touching the transport; then hand the frame to
`::send`. -/
def implSend (env : NetEnv) (st : ImplState) (frame : List Nat) :
    ImplState × Error × List (List Nat) :=
  if st.connected then implSendRaw env st frame
  else
    let p := implConnect env st
    if p.2 = Error.Ok then implSendRaw env p.1 frame
    else (p.1, p.2, [])

/-- Embeds `Client::openImage`: build the packet (never throws) and send it. -/
def clientOpenImage (env : NetEnv) (st : ImplState)
    (imagePath channelSelector : String) (grabFocus : Bool) :
    ImplState × OpResult × List (List Nat) :=
  let out := implSend env st (setOpenImage imagePath channelSelector grabFocus)
  (out.1, .ret out.2.1, out.2.2)

/-- Embeds `Client::reloadImage`: build the packet (never throws) and send
it. -/
def clientReloadImage (env : NetEnv) (st : ImplState)
    (imageName : String) (grabFocus : Bool) :
    ImplState × OpResult × List (List Nat) :=
  let out := implSend env st (setReloadImage imageName grabFocus)
  (out.1, .ret out.2.1, out.2.2)

/-- Embeds `Client::closeImage`: build the packet (never throws) and send
it. -/
def clientCloseImage (env : NetEnv) (st : ImplState) (imageName : String) :
    ImplState × OpResult × List (List Nat) :=
  let out := implSend env st (setCloseImage imageName)
  (out.1, .ret out.2.1, out.2.2)

/-- Embeds `Client::createImage` (explicit channel names): validate the
dimensions and the channel list, then build and send the packet. -/
def clientCreateImageNamed (env : NetEnv) (st : ImplState)
    (imageName : String) (width height : Nat) (channelNames : List String)
    (grabFocus : Bool) : ImplState × OpResult × List (List Nat) :=
  if width = 0 ∨ height = 0 then
    (setLastErr st .ImageError "Image width and height must be greater than 0.",
      .ret .ImageError, [])
  else if channelNames = [] then
    (setLastErr st .ImageError "Image must have at least one channel.",
      .ret .ImageError, [])
  else
    match setCreateImage imageName grabFocus width height channelNames.length channelNames with
    | (_, some m) => (st, .exn m, [])
    | (frame, none) =>
      let out := implSend env st frame
      (out.1, .ret out.2.1, out.2.2)

/-- The default channel names `Client::createImage` selects from the
channel count (the `switch`); `none` is the `default:` branch. -/
def defaultChannelNames (channelCount : Nat) : Option (List String) :=
  match channelCount with
  | 1 => some ["R"]
  | 2 => some ["R", "G"]
  | 3 => some ["R", "G", "B"]
  | 4 => some ["R", "G", "B", "A"]
  | _ => none

/-- Embeds `Client::createImage` (channel count, default names): pick default
names for 1–4 channels or fail with
`"Image must have between 1 and 4 channels."`; then the named overload. -/
def clientCreateImageDefault (env : NetEnv) (st : ImplState)
    (imageName : String) (width height channelCount : Nat) (grabFocus : Bool) :
    ImplState × OpResult × List (List Nat) :=
  match defaultChannelNames channelCount with
  | none =>
    (setLastErr st .ImageError "Image must have between 1 and 4 channels.",
      .ret .ImageError, [])
  | some names => clientCreateImageNamed env st imageName width height names grabFocus

/-- Embeds `Client::updateImage` (strided overload): build the packet — an
exception from `setUpdateImage` propagates before `send` is reached — and
send it. -/
def clientUpdateImageStrided (env : NetEnv) (st : ImplState)
    (imageName : String) (x y width height : Int)
    (channelDescs : List ChannelDesc) (imageData : List Nat)
    (grabFocus : Bool) : ImplState × OpResult × List (List Nat) :=
  match setUpdateImage imageName grabFocus channelDescs x y width height imageData with
  | (_, some m) => (st, .exn m, [])
  | (frame, none) =>
    let out := implSend env st frame
    (out.1, .ret out.2.1, out.2.2)

/-- The default channel descriptors `Client::updateImage` (convenience
overload) selects from the channel count: names from R,G,B,A, offset `i`,
stride `channelCount`. -/
def defaultChannelDescs (channelCount : Nat) : Option (List ChannelDesc) :=
  match channelCount with
  | 1 => some [⟨"R", 0, 1⟩]
  | 2 => some [⟨"R", 0, 2⟩, ⟨"G", 1, 2⟩]
  | 3 => some [⟨"R", 0, 3⟩, ⟨"G", 1, 3⟩, ⟨"B", 2, 3⟩]
  | 4 => some [⟨"R", 0, 4⟩, ⟨"G", 1, 4⟩, ⟨"B", 2, 4⟩, ⟨"A", 3, 4⟩]
  | _ => none

/-- Embeds `Client::updateImage` (convenience overload): default descriptors for
1–4 channels, then the strided overload over the full region at `x = 0`,
`y = 0` (the call site does not forward `grabFocus`; the strided overload
defaults it to `true`). -/
def clientUpdateImageConv (env : NetEnv) (st : ImplState)
    (imageName : String) (width height channelCount : Nat)
    (imageData : List Nat) (grabFocus : Bool) :
    ImplState × OpResult × List (List Nat) :=
  match defaultChannelDescs channelCount with
  | none =>
    (setLastErr st .ImageError "Image must have between 1 and 4 channels.",
      .ret .ImageError, [])
  | some descs =>
    clientUpdateImageStrided env st imageName 0 0 width height descs imageData true

/-- One process-lifetime event: a `Client::Impl` constructor or
destructor run. -/
inductive SessionEvent where
  | create
  | destroy
deriving DecidableEq, Repr

/-- The process-wide bootstrap state: the value of `sInstanceCount` plus
counters of how many times the one-time initialization
(`WSAStartup`/`signal` block) and teardown (`WSACleanup` block) have run. -/
structure BootState where
  count : Nat
  inits : Nat
  teardowns : Nat
deriving DecidableEq, Repr

/-- One step of the bootstrap protocol: the constructor runs the
initialization block iff `sInstanceCount++ == 0`; the destructor runs the
teardown block iff `sInstanceCount-- == 1`. -/
def bootStep (s : BootState) : SessionEvent → BootState
  | .create =>
    { count := s.count + 1,
      inits := if s.count = 0 then s.inits + 1 else s.inits,
      teardowns := s.teardowns }
  | .destroy =>
    { count := s.count - 1,
      inits := s.inits,
      teardowns := if s.count = 1 then s.teardowns + 1 else s.teardowns }

/-- Run a sequence of session creations/destructions from the process
start state. -/
def bootRun (events : List SessionEvent) : BootState :=
  events.foldl bootStep ⟨0, 0, 0⟩

/-- Number of session creations in an event sequence. -/
def countCreate : List SessionEvent → Nat
  | [] => 0
  | .create :: r => countCreate r + 1
  | .destroy :: r => countCreate r

/-- Number of session destructions in an event sequence. -/
def countDestroy : List SessionEvent → Nat
  | [] => 0
  | .create :: r => countDestroy r
  | .destroy :: r => countDestroy r + 1

/-- A sequence of session events is well formed when no session is
destroyed before a matching creation: every prefix has at least as many
creations as destructions. -/
def balanced (events : List SessionEvent) : Prop :=
  ∀ n, countDestroy (events.take n) ≤ countCreate (events.take n)

/-- Payload bytes of the current OpenImage packet. -/
def openImagePayload (imagePath channelSelector : String) (grabFocus : Bool) : List Nat :=
  [7] ++ boolByte grabFocus ++ strBytes imagePath ++ strBytes channelSelector

/-- Payload bytes of a CreateImage packet. -/
def createImagePayload (imageName : String) (grabFocus : Bool)
    (width height nChannels : Int) (channelNames : List String) : List Nat :=
  [4] ++ boolByte grabFocus ++ strBytes imageName ++ intBytes 4 width ++
    intBytes 4 height ++ intBytes 4 nChannels ++ (channelNames.map strBytes).flatten

/-- Header bytes of the strided UpdateImage packet (everything before the
pixel data). -/
def updateImageHeader (imageName : String) (grabFocus : Bool)
    (channelDescs : List ChannelDesc) (x y width height : Int) : List Nat :=
  [6] ++ boolByte grabFocus ++ strBytes imageName ++
    intBytes 4 (channelDescs.length : Int) ++
    ((channelDescs.map (·.name)).map strBytes).flatten ++
    intBytes 4 x ++ intBytes 4 y ++ intBytes 4 width ++ intBytes 4 height ++
    ((channelDescs.map (·.offset)).map (intBytes 8)).flatten ++
    ((channelDescs.map (·.stride)).map (intBytes 8)).flatten

/-- The wire invariant of a frame: the four prefix bytes are the
little-endian total byte count of the frame itself, and the fifth byte is
the packet-kind tag. -/
def framePrefixOk (frame : List Nat) (tag : Nat) : Prop :=
  frame.take 4 = toLE 4 frame.length ∧ frame[4]? = some tag

/-- The concrete vector-graphics command list of the claim:
`beginPath(), moveTo(0,0), lineTo(1,1), stroke()` (float payloads as IEEE
bit patterns; `1.0f = 0x3f800000`). -/
def vgClaimCommands : List VgCommand :=
  [.beginPath, .moveTo 0 0, .lineTo 0x3f800000 0x3f800000, .stroke]

/-- Modelled from the spec: the minimum buffer length for a strided
update, max over channels of `offset[c] + (pixelCount - 1) * stride[c] + 1`
in exact integer arithmetic. -/
def specRequiredSize (channelDescs : List ChannelDesc) (pixelCount : Nat) : Int :=
  channelDescs.foldl
    (fun acc d => max acc (d.offset + ((pixelCount : Int) - 1) * d.stride + 1)) 0

/-! ### Normal form of the byte writer

Every `OStream` write appends at the end of the buffer and re-patches the
four prefix bytes, so a finished packet always has the `mkFrame` shape.
The lemmas below push every writer to that normal form. -/

theorem toLE_length (w v : Nat) : (toLE w v).length = w := by
  induction w generalizing v with
  | zero => rfl
  | succ n ih => simp [toLE, ih]

theorem wr_mkFrame (p bs : List Nat) : wr (mkFrame p) bs = mkFrame (p ++ bs) := by
  have hlen : (toLE 4 (4 + p.length)).length = 4 := toLE_length 4 _
  simp only [wr, mkFrame, updateSize, List.append_assoc]
  have h1 : (toLE 4 (4 + p.length) ++ (p ++ bs)).length = 4 + (p ++ bs).length := by
    simp [hlen]
  have h2 : (toLE 4 (4 + p.length) ++ (p ++ bs)).drop 4 = p ++ bs := by
    rw [← hlen]
    exact List.drop_left _ _
  rw [h1, h2]

theorem osInit_eq : osInit = mkFrame [] := by decide

theorem wrBool_mkFrame (p : List Nat) (b : Bool) :
    wrBool (mkFrame p) b = mkFrame (p ++ boolByte b) := by
  simp [wrBool, boolByte, wr_mkFrame]

theorem wrI32_mkFrame (p : List Nat) (v : Int) :
    wrI32 (mkFrame p) v = mkFrame (p ++ intBytes 4 v) := by
  simp [wrI32, wr_mkFrame]

theorem wrI64_mkFrame (p : List Nat) (v : Int) :
    wrI64 (mkFrame p) v = mkFrame (p ++ intBytes 8 v) := by
  simp [wrI64, wr_mkFrame]

theorem wrChars_mkFrame (cs : List Char) (p : List Nat) :
    cs.foldl wrCharByte (mkFrame p) =
      mkFrame (p ++ cs.map (fun c => c.toNat % 256)) := by
  induction cs generalizing p with
  | nil => simp
  | cons c cs ih =>
    simp only [List.foldl_cons, List.map_cons]
    rw [show wrCharByte (mkFrame p) c = mkFrame (p ++ [c.toNat % 256]) from wr_mkFrame p _,
      ih]
    simp

theorem wrString_mkFrame (p : List Nat) (s : String) :
    wrString (mkFrame p) s = mkFrame (p ++ strBytes s) := by
  simp only [wrString, strBytes, wrChars_mkFrame, wr_mkFrame, List.append_assoc]

theorem wrStringList_mkFrame (ss : List String) (p : List Nat) :
    wrStringList (mkFrame p) ss = mkFrame (p ++ (ss.map strBytes).flatten) := by
  induction ss generalizing p with
  | nil => simp [wrStringList]
  | cons s ss ih =>
    simp only [wrStringList, List.foldl_cons] at ih ⊢
    rw [wrString_mkFrame, ih]
    simp

theorem wrI64List_mkFrame (vs : List Int) (p : List Nat) :
    wrI64List (mkFrame p) vs = mkFrame (p ++ (vs.map (intBytes 8)).flatten) := by
  induction vs generalizing p with
  | nil => simp [wrI64List]
  | cons v vs ih =>
    simp only [wrI64List, List.foldl_cons] at ih ⊢
    rw [wrI64_mkFrame, ih]
    simp

theorem setOpenImage_eq (imagePath channelSelector : String) (grabFocus : Bool) :
    setOpenImage imagePath channelSelector grabFocus =
      mkFrame (openImagePayload imagePath channelSelector grabFocus) := by
  simp only [setOpenImage, openImagePayload, osInit_eq,
    show ∀ bs, wr (mkFrame []) bs = mkFrame bs by intro bs; simpa using wr_mkFrame [] bs,
    wrBool_mkFrame, wrString_mkFrame, List.append_assoc]

theorem setReloadImage_eq (imageName : String) (grabFocus : Bool) :
    setReloadImage imageName grabFocus =
      mkFrame ([1] ++ boolByte grabFocus ++ strBytes imageName) := by
  simp only [setReloadImage, osInit_eq,
    show ∀ bs, wr (mkFrame []) bs = mkFrame bs by intro bs; simpa using wr_mkFrame [] bs,
    wrBool_mkFrame, wrString_mkFrame, List.append_assoc]

theorem setCloseImage_eq (imageName : String) :
    setCloseImage imageName = mkFrame ([2] ++ strBytes imageName) := by
  simp only [setCloseImage, osInit_eq,
    show ∀ bs, wr (mkFrame []) bs = mkFrame bs by intro bs; simpa using wr_mkFrame [] bs,
    wrString_mkFrame, List.append_assoc]

theorem setCreateImage_eq (imageName : String) (grabFocus : Bool)
    (width height nChannels : Int) (channelNames : List String)
    (h : (channelNames.length : Int) = nChannels) :
    setCreateImage imageName grabFocus width height nChannels channelNames =
      (mkFrame (createImagePayload imageName grabFocus width height
        nChannels channelNames), none) := by
  have h' : ¬ ((channelNames.length : Int) ≠ nChannels) := by simp [h]
  simp only [setCreateImage, createImagePayload, if_neg h', osInit_eq,
    show ∀ bs, wr (mkFrame []) bs = mkFrame bs by intro bs; simpa using wr_mkFrame [] bs,
    wrBool_mkFrame, wrString_mkFrame, wrI32_mkFrame, wrStringList_mkFrame,
    List.append_assoc]

theorem setUpdateImage_eq (imageName : String) (grabFocus : Bool)
    (channelDescs : List ChannelDesc) (x y width height : Int)
    (imageData : List Nat) (hne : channelDescs ≠ []) :
    setUpdateImage imageName grabFocus channelDescs x y width height imageData =
      if imageData.length ≠ stridedImageDataSize (nPixelsOf width height) channelDescs then
        (mkFrame (updateImageHeader imageName grabFocus channelDescs x y width height),
          some "UpdateImage IPC packet data size does not match specified dimensions, offset, and stride.")
      else
        (mkFrame (updateImageHeader imageName grabFocus channelDescs x y width height ++
          (imageData.map (fun v => toLE 4 v)).flatten), none) := by
  simp only [setUpdateImage, if_neg hne, updateImageHeader, osInit_eq,
    show ∀ bs, wr (mkFrame []) bs = mkFrame bs by intro bs; simpa using wr_mkFrame [] bs,
    wrBool_mkFrame, wrString_mkFrame, wrI32_mkFrame, wrStringList_mkFrame,
    wrI64List_mkFrame, wr_mkFrame, List.append_assoc]

theorem setVectorGraphics_eq (imageName : String) (grabFocus append : Bool)
    (commands : List VgCommand) (ptrs : List (List Nat)) :
    setVectorGraphics imageName grabFocus append commands ptrs =
      mkFrame ([8] ++ boolByte grabFocus ++ strBytes imageName ++ boolByte append ++
        intBytes 4 (commands.length : Int) ++
        ((commands.zip ptrs).map (fun cp => cp.1.type % 256 :: cp.2)).flatten) := by
  have hfold : ∀ (l : List (VgCommand × List Nat)) (p : List Nat),
      l.foldl (fun acc cp => wr (wr acc [cp.1.type % 256]) cp.2) (mkFrame p) =
        mkFrame (p ++ (l.map (fun cp => cp.1.type % 256 :: cp.2)).flatten) := by
    intro l
    induction l with
    | nil => intro p; simp
    | cons cp l ih =>
      intro p
      simp only [List.foldl_cons, wr_mkFrame, List.map_cons, List.flatten_cons]
      rw [ih]
      simp
  simp only [setVectorGraphics, osInit_eq,
    show ∀ bs, wr (mkFrame []) bs = mkFrame bs by intro bs; simpa using wr_mkFrame [] bs,
    wrBool_mkFrame, wrString_mkFrame, wrI32_mkFrame, hfold, List.append_assoc]

/-! ### Frame shape facts -/

theorem mkFrame_length (p : List Nat) : (mkFrame p).length = 4 + p.length := by
  simp [mkFrame, toLE_length]

theorem mkFrame_prefixOk (t : Nat) (r : List Nat) :
    framePrefixOk (mkFrame (t :: r)) t := by
  constructor
  · rw [mkFrame_length]
    show (toLE 4 (4 + (t :: r).length) ++ (t :: r)).take 4 = _
    conv_lhs => rw [show (4 : Nat) = (toLE 4 (4 + (t :: r).length)).length from (toLE_length 4 _).symm]
    exact List.take_left _ _
  · show (toLE 4 (4 + (t :: r).length) ++ (t :: r))[4]? = some t
    rw [List.getElem?_append_right (by rw [toLE_length])]
    simp [toLE_length]

/-! ### Claim theorems -/

/-- C3: every frame produced by any of the command encoders (open, reload,
close, create, update, vector graphics) starts with a 4-byte length prefix
equal to the total byte count of the frame including the prefix itself,
followed by the 1-byte packet-kind tag of that command. -/
theorem C3_length_prefix_exact :
    (∀ imagePath channelSelector grabFocus,
      framePrefixOk (setOpenImage imagePath channelSelector grabFocus) 7) ∧
    (∀ imageName grabFocus,
      framePrefixOk (setReloadImage imageName grabFocus) 1) ∧
    (∀ imageName,
      framePrefixOk (setCloseImage imageName) 2) ∧
    (∀ imageName grabFocus w h n names frame,
      setCreateImage imageName grabFocus w h n names = (frame, none) →
      framePrefixOk frame 4) ∧
    (∀ imageName grabFocus descs x y w h data frame,
      setUpdateImage imageName grabFocus descs x y w h data = (frame, none) →
      framePrefixOk frame 6) ∧
    (∀ imageName grabFocus append cmds ptrs,
      framePrefixOk (setVectorGraphics imageName grabFocus append cmds ptrs) 8) := by
  refine ⟨?_, ?_, ?_, ?_, ?_, ?_⟩
  · intro p s g
    rw [setOpenImage_eq]
    exact mkFrame_prefixOk 7 _
  · intro n g
    rw [setReloadImage_eq]
    simpa using mkFrame_prefixOk 1 _
  · intro n
    rw [setCloseImage_eq]
    simpa using mkFrame_prefixOk 2 _
  · intro name g w h n names frame hf
    by_cases hc : (names.length : Int) = n
    · rw [setCreateImage_eq name g w h n names hc] at hf
      obtain ⟨rfl, -⟩ : mkFrame (createImagePayload name g w h n names) = frame ∧ True :=
        ⟨(Prod.mk.injEq _ _ _ _ ▸ hf).1, trivial⟩
      simpa [createImagePayload] using mkFrame_prefixOk 4 _
    · simp [setCreateImage, hc] at hf
  · intro name g descs x y w h data frame hf
    by_cases hne : descs = []
    · simp [setUpdateImage, hne] at hf
    · rw [setUpdateImage_eq name g descs x y w h data hne] at hf
      split at hf
      · simp at hf
      · obtain ⟨rfl, -⟩ : mkFrame _ = frame ∧ True :=
          ⟨(Prod.mk.injEq _ _ _ _ ▸ hf).1, trivial⟩
        simpa [updateImageHeader] using mkFrame_prefixOk 6 _
  · intro name g a cmds ptrs
    rw [setVectorGraphics_eq]
    simpa using mkFrame_prefixOk 8 _

/-- Witness for C3 at concrete frames of every encoder. -/
theorem C3_length_prefix_exact_witness :
    framePrefixOk (setOpenImage "a.png" "R" true) 7 ∧
    framePrefixOk (setReloadImage "i" true) 1 ∧
    framePrefixOk (setCloseImage "i") 2 ∧
    framePrefixOk (setCreateImage "i" true 1 1 1 ["R"]).1 4 ∧
    framePrefixOk (setUpdateImage "i" true [⟨"R", 0, 1⟩] 0 0 1 1 [0]).1 6 ∧
    framePrefixOk (setVectorGraphics "i" true true [.beginPath] [[0, 0, 0, 0, 0, 0, 0, 0]]) 8 :=
  ⟨C3_length_prefix_exact.1 "a.png" "R" true,
   C3_length_prefix_exact.2.1 "i" true,
   C3_length_prefix_exact.2.2.1 "i",
   C3_length_prefix_exact.2.2.2.1 "i" true 1 1 1 ["R"] _ (by decide),
   C3_length_prefix_exact.2.2.2.2.1 "i" true [⟨"R", 0, 1⟩] 0 0 1 1 [0] _ (by decide),
   C3_length_prefix_exact.2.2.2.2.2 "i" true true [.beginPath] [[0, 0, 0, 0, 0, 0, 0, 0]]⟩

/-- C9: encoding `openImage("a.png", "R", true)` and decoding the
resulting frame per the wire layout (length prefix, kind tag
`OpenImageV2 = 7`, grab-focus byte, null-terminated path, null-terminated
selector) reconstructs the path, selector and flag exactly. -/
theorem C9_openImage_roundTrip :
    decodeOpenImage (setOpenImage "a.png" "R" true) = some ("a.png", "R", true) := by
  decide

/-- C2 (code bug): the intended float payload length of each command is its
`dataCount` (`0, 2, 2, 0` here, wire entry sizes `1, 9, 9, 1` bytes summing
to a 33-byte frame), but the encoder writes 9 bytes for every command
regardless of kind — the 1-byte kind followed by the 8-byte address of the
`float[8]` payload array (array-to-pointer decay in
`payload << command.data`), never the floats themselves: the 49-byte frame
does not even contain the byte `63 = 0x3f` of the `lineTo` coordinate
`1.0f`. -/
theorem C2_vg_payload_pointer_bug :
    vgClaimCommands.map (fun c => c.dataCount) = [0, 2, 2, 0] ∧
    vgClaimCommands.map specVgEntryLength = [1, 9, 9, 1] ∧
    4 + 9 + (vgClaimCommands.map specVgEntryLength).sum = 33 ∧
    (setVectorGraphics "i" true true vgClaimCommands
      (List.replicate 4 (List.replicate 8 0))).length = 49 ∧
    63 ∉ setVectorGraphics "i" true true vgClaimCommands
      (List.replicate 4 (List.replicate 8 0)) := by
  decide

/-- C7 counterexample: creating and destroying two sessions in the order
create, destroy, create, destroy leaves the counter at 0 but runs the
one-time initialization block twice (and the teardown block twice), not
exactly once per process lifetime. -/
theorem C7_counterexample_two_lifetimes :
    bootRun [.create, .destroy, .create, .destroy] =
      { count := 0, inits := 2, teardowns := 2 } ∧ (2 : Nat) ≠ 1 := by
  decide

theorem boot_count (evs : List SessionEvent) :
    ∀ s : BootState,
      (∀ n, countDestroy (evs.take n) ≤ s.count + countCreate (evs.take n)) →
      (evs.foldl bootStep s).count = s.count + countCreate evs - countDestroy evs := by
  induction evs with
  | nil => intro s _; simp [countCreate, countDestroy]
  | cons e evs ih =>
    intro s hval
    have hfull := hval (evs.length + 1)
    rw [List.take_of_length_le (by simp)] at hfull
    cases e with
    | create =>
      have h2 := ih (bootStep s .create) (by
        intro n
        have h := hval (n + 1)
        rw [List.take_succ_cons] at h
        simp only [countCreate, countDestroy, bootStep] at h ⊢
        omega)
      simp only [List.foldl_cons, countCreate, countDestroy] at h2 ⊢
      rw [h2]
      simp only [countCreate, countDestroy, bootStep] at hfull ⊢
      omega
    | destroy =>
      have h2 := ih (bootStep s .destroy) (by
        intro n
        have h := hval (n + 1)
        rw [List.take_succ_cons] at h
        have h1 := hval 1
        simp only [List.take_succ_cons, List.take_zero] at h1
        simp only [countCreate, countDestroy, bootStep] at h h1 ⊢
        omega)
      simp only [List.foldl_cons, countCreate, countDestroy] at h2 ⊢
      rw [h2]
      have h1 := hval 1
      simp only [List.take_succ_cons, List.take_zero] at h1
      simp only [countCreate, countDestroy, bootStep] at hfull h1 ⊢
      omega

theorem boot_inits_eq_teardowns_inv (evs : List SessionEvent) :
    ∀ s : BootState,
      s.inits = s.teardowns + min s.count 1 →
      (evs.foldl bootStep s).inits =
        (evs.foldl bootStep s).teardowns + min (evs.foldl bootStep s).count 1 := by
  induction evs with
  | nil => intro s h; exact h
  | cons e evs ih =>
    intro s h
    cases e with
    | create =>
      refine ih (bootStep s .create) ?_
      show (if s.count = 0 then s.inits + 1 else s.inits) = s.teardowns + min (s.count + 1) 1
      split <;> omega
    | destroy =>
      refine ih (bootStep s .destroy) ?_
      show s.inits = (if s.count = 1 then s.teardowns + 1 else s.teardowns) + min (s.count - 1) 1
      split <;> omega

theorem boot_creates (k : Nat) :
    ∀ s : BootState, 1 ≤ s.count →
      (List.replicate k SessionEvent.create).foldl bootStep s =
        { count := s.count + k, inits := s.inits, teardowns := s.teardowns } := by
  induction k with
  | zero => intro s _; simp
  | succ k ih =>
    intro s hs
    rw [List.replicate_succ, List.foldl_cons]
    have hstep : bootStep s .create =
        { count := s.count + 1, inits := s.inits, teardowns := s.teardowns } := by
      show ({ count := s.count + 1,
              inits := if s.count = 0 then s.inits + 1 else s.inits,
              teardowns := s.teardowns } : BootState) = _
      rw [if_neg (by omega)]
    rw [hstep, ih _ (by simp)]
    dsimp only
    simp only [BootState.mk.injEq, and_true, true_and]
    omega

theorem boot_destroys (k : Nat) :
    ∀ s : BootState, k + 1 ≤ s.count →
      (List.replicate k SessionEvent.destroy).foldl bootStep s =
        { count := s.count - k, inits := s.inits, teardowns := s.teardowns } := by
  induction k with
  | zero => intro s _; simp
  | succ k ih =>
    intro s hs
    rw [List.replicate_succ, List.foldl_cons]
    have hstep : bootStep s .destroy =
        { count := s.count - 1, inits := s.inits, teardowns := s.teardowns } := by
      show ({ count := s.count - 1,
              inits := s.inits,
              teardowns := if s.count = 1 then s.teardowns + 1 else s.teardowns } : BootState) = _
      rw [if_neg (by omega)]
    rw [hstep, ih _ (by dsimp only; omega)]
    dsimp only
    simp only [BootState.mk.injEq, and_true, true_and]
    omega

/-- C7 (amended): for every balanced sequence of session creations and
destructions with as many destructions as creations, the bootstrap counter
returns to 0 and the initialization block has run exactly as many times as
the teardown block — once per maximal period with live sessions, not once
per process lifetime; in particular when all `N` creations precede all
destructions, initialization and teardown each run exactly once. -/
theorem C7_amended_bootstrap :
    (∀ evs, balanced evs → countCreate evs = countDestroy evs →
      (bootRun evs).count = 0 ∧ (bootRun evs).inits = (bootRun evs).teardowns) ∧
    (∀ n, 1 ≤ n →
      bootRun (List.replicate n .create ++ List.replicate n .destroy) =
        { count := 0, inits := 1, teardowns := 1 }) := by
  constructor
  · intro evs hbal heq
    have hcount : (bootRun evs).count = 0 := by
      unfold bootRun
      rw [boot_count evs ⟨0, 0, 0⟩ (by intro n; simpa using hbal n)]
      dsimp only
      omega
    refine ⟨hcount, ?_⟩
    have := boot_inits_eq_teardowns_inv evs ⟨0, 0, 0⟩ (by decide)
    unfold bootRun at hcount ⊢
    rw [this, hcount]
    omega
  · intro n hn
    obtain ⟨m, rfl⟩ : ∃ m, n = m + 1 := ⟨n - 1, by omega⟩
    unfold bootRun
    rw [List.foldl_append]
    rw [List.replicate_succ, List.foldl_cons]
    have h1 : bootStep ⟨0, 0, 0⟩ .create = ⟨1, 1, 0⟩ := by rfl
    rw [h1, boot_creates m ⟨1, 1, 0⟩ (by decide)]
    dsimp only
    rw [List.replicate_succ' m SessionEvent.destroy, List.foldl_append]
    rw [boot_destroys m ⟨1 + m, 1, 0⟩ (by dsimp only; omega)]
    dsimp only
    simp only [List.foldl_cons, List.foldl_nil]
    have h2 : (1 : Nat) + m - m = 1 := by omega
    rw [h2]
    rfl

theorem connectLoop_lastError (attempts : List AddrStep) :
    ∀ st : ImplState,
      (connectLoop attempts st).lastError = st.lastError ∨
      (connectLoop attempts st).lastError = Error.SocketError := by
  induction attempts with
  | nil => intro st; left; rfl
  | cons a rest ih =>
    intro st
    cases a with
    | socketFail m =>
      rcases ih (setLastErr st .SocketError ("socket() failed: " ++ m)) with h | h
      · right; exact h
      · right; exact h
    | connectFail m =>
      rcases ih (setLastErr st .SocketError ("connect() failed: " ++ m)) with h | h
      · right; exact h
      · right; exact h
    | success => left; rfl

theorem implConnect_result (env : NetEnv) (st : ImplState) :
    (implConnect env st).2 = Error.Ok ∨ (implConnect env st).2 = Error.SocketError := by
  unfold implConnect
  split
  · left; rfl
  · cases env.resolv with
    | error m => right; rfl
    | ok attempts =>
      rcases connectLoop_lastError attempts (setLastErr st .Ok "") with h | h
      · left; simpa [setLastErr] using h
      · right; simpa using h

theorem implSendRaw_result (env : NetEnv) (st : ImplState) (frame : List Nat) :
    (implSendRaw env st frame).2.1 = Error.Ok ∨
    (implSendRaw env st frame).2.1 = Error.SocketError := by
  unfold implSendRaw
  split
  · left; rfl
  · right; rfl

theorem implSend_result (env : NetEnv) (st : ImplState) (frame : List Nat) :
    (implSend env st frame).2.1 = Error.Ok ∨
    (implSend env st frame).2.1 = Error.SocketError := by
  unfold implSend
  split
  · exact implSendRaw_result env st frame
  · rcases hc : implConnect env st with ⟨stc, e⟩
    simp only [hc]
    split
    · exact implSendRaw_result env _ frame
    · rcases implConnect_result env st with h | h <;> rw [hc] at h
      · simp_all
      · right; simpa using h

theorem retSend_ne_nc (env : NetEnv) (st : ImplState) (frame : List Nat) :
    OpResult.ret (implSend env st frame).2.1 ≠ OpResult.ret Error.NotConnected := by
  rcases implSend_result env st frame with h | h <;> simp [h]

theorem createNamed_ne_nc (env : NetEnv) (st : ImplState) (n : String)
    (w h : Nat) (names : List String) (g : Bool) :
    (clientCreateImageNamed env st n w h names g).2.1 ≠ OpResult.ret Error.NotConnected := by
  unfold clientCreateImageNamed
  split
  · simp
  · split
    · simp
    · split
      · simp
      · exact retSend_ne_nc env st _

theorem strided_ne_nc (env : NetEnv) (st : ImplState) (n : String)
    (x y w h : Int) (descs : List ChannelDesc) (data : List Nat) (g : Bool) :
    (clientUpdateImageStrided env st n x y w h descs data g).2.1 ≠
      OpResult.ret Error.NotConnected := by
  unfold clientUpdateImageStrided
  split
  · simp
  · exact retSend_ne_nc env st _

/-- C10: no public operation ever yields `Error::NotConnected`; a command
issued while unconnected first attempts the connection inside `send`, and
when that connect fails the operation short-circuits with the
`SocketError` of the connection attempt (no frame handed to the transport) — the `NotConnected`
branch of the error enumeration is unreachable. -/
theorem C10_notConnected_unreachable :
    (∀ env st frame, (implSend env st frame).2.1 ≠ Error.NotConnected) ∧
    (∀ env st frame, st.connected = false → (implConnect env st).2 ≠ Error.Ok →
      (implConnect env st).2 = Error.SocketError ∧
      implSend env st frame = ((implConnect env st).1, (implConnect env st).2, [])) ∧
    (∀ env st p s g, (clientOpenImage env st p s g).2.1 ≠ OpResult.ret Error.NotConnected) ∧
    (∀ env st n g, (clientReloadImage env st n g).2.1 ≠ OpResult.ret Error.NotConnected) ∧
    (∀ env st n, (clientCloseImage env st n).2.1 ≠ OpResult.ret Error.NotConnected) ∧
    (∀ env st n w h names g,
      (clientCreateImageNamed env st n w h names g).2.1 ≠ OpResult.ret Error.NotConnected) ∧
    (∀ env st n w h cc g,
      (clientCreateImageDefault env st n w h cc g).2.1 ≠ OpResult.ret Error.NotConnected) ∧
    (∀ env st n x y w h descs data g,
      (clientUpdateImageStrided env st n x y w h descs data g).2.1 ≠
        OpResult.ret Error.NotConnected) ∧
    (∀ env st n w h cc data g,
      (clientUpdateImageConv env st n w h cc data g).2.1 ≠
        OpResult.ret Error.NotConnected) := by
  refine ⟨?_, ?_, ?_, ?_, ?_, ?_, ?_, ?_, ?_⟩
  · intro env st frame
    rcases implSend_result env st frame with h | h <;> simp [h]
  · intro env st frame hc hne
    rcases implConnect_result env st with h | h
    · exact absurd h hne
    · refine ⟨h, ?_⟩
      unfold implSend
      rw [if_neg (by simp [hc])]
      rcases hp : implConnect env st with ⟨stc, e⟩
      rw [hp] at h
      simp only at h
      simp only [hp, h]
      rfl
  · intro env st p s g
    exact retSend_ne_nc env st _
  · intro env st n g
    exact retSend_ne_nc env st _
  · intro env st n
    exact retSend_ne_nc env st _
  · intro env st n w h names g
    exact createNamed_ne_nc env st n w h names g
  · intro env st n w h cc g
    unfold clientCreateImageDefault
    split
    · simp
    · exact createNamed_ne_nc env st n w h _ g
  · intro env st n x y w h descs data g
    exact strided_ne_nc env st n x y w h descs data g
  · intro env st n w h cc data g
    unfold clientUpdateImageConv
    split
    · simp
    · exact strided_ne_nc env st n 0 0 w h _ data true

/-- Witness for C10 at a concrete unconnected session whose name
resolution fails. -/
theorem C10_notConnected_unreachable_witness :
    (implConnect ⟨.error "x", true⟩ ⟨false, .Ok, ""⟩).2 = Error.SocketError ∧
    implSend ⟨.error "x", true⟩ ⟨false, .Ok, ""⟩ [0] =
      ((implConnect ⟨.error "x", true⟩ ⟨false, .Ok, ""⟩).1,
        (implConnect ⟨.error "x", true⟩ ⟨false, .Ok, ""⟩).2, []) :=
  C10_notConnected_unreachable.2.1 ⟨.error "x", true⟩ ⟨false, .Ok, ""⟩ [0]
    (by decide) (by decide)

theorem implSend_connected_ok (env : NetEnv) (st : ImplState) (frame : List Nat)
    (hc : st.connected = true) (hs : env.sendOk = true) :
    implSend env st frame = (st, .Ok, [frame]) := by
  unfold implSend implSendRaw
  rw [if_pos hc, if_pos (by simp [hc, hs])]

theorem implSend_connected_fail (env : NetEnv) (st : ImplState) (frame : List Nat)
    (hc : st.connected = true) (hs : env.sendOk = false) :
    implSend env st frame =
      (setLastErr st .SocketError "socket send() failed", .SocketError, [frame]) := by
  unfold implSend implSendRaw
  rw [if_pos hc, if_neg (by simp [hs])]

/-- C4 counterexample: an `openImage` that succeeds over an open socket
leaves the previously stored last error (`ImageError`, message `"m"`)
untouched — a successful operation does not reset the last error to
`Ok`/empty. -/
theorem C4_counterexample_success_not_cleared :
    (clientOpenImage ⟨.ok [.success], true⟩ ⟨true, .ImageError, "m"⟩ "a" "" true).2.1 =
      OpResult.ret Error.Ok ∧
    (clientOpenImage ⟨.ok [.success], true⟩ ⟨true, .ImageError, "m"⟩ "a" "" true).1.lastError =
      Error.ImageError ∧
    Error.ImageError ≠ Error.Ok := by
  decide

theorem implSendRaw_ok (env : NetEnv) (st : ImplState) (frame : List Nat)
    (hc : st.connected = true) (hs : env.sendOk = true) :
    implSendRaw env st frame = (st, .Ok, [frame]) := by
  unfold implSendRaw
  rw [if_pos (by simp [hc, hs])]

theorem implConnect_resolv_fail (env : NetEnv) (st : ImplState) (m : String)
    (hc : st.connected = false) (hr : env.resolv = .error m) :
    implConnect env st =
      (setLastErr st .SocketError ("getaddrinfo() failed: " ++ m), .SocketError) := by
  unfold implConnect
  rw [if_neg (by simp [hc])]
  simp only [hr]

theorem implConnect_first_success (env : NetEnv) (st : ImplState) (rest : List AddrStep)
    (hc : st.connected = false) (hr : env.resolv = .ok (.success :: rest)) :
    implConnect env st = (⟨true, .Ok, ""⟩, .Ok) := by
  rcases st with ⟨c, e, msg⟩
  unfold implConnect
  rw [if_neg (by simp_all)]
  simp only [hr, connectLoop, setLastErr]

theorem implConnect_stores (env : NetEnv) (st : ImplState)
    (hc : st.connected = false) :
    (implConnect env st).1.lastError = (implConnect env st).2 := by
  unfold implConnect
  rw [if_neg (by simp [hc])]
  rcases henv : env.resolv with m | attempts
  · simp only [henv]
    rfl
  · simp only [henv]

theorem implSend_resolv_fail (env : NetEnv) (st : ImplState) (frame : List Nat)
    (m : String) (hc : st.connected = false) (hr : env.resolv = .error m) :
    implSend env st frame =
      (setLastErr st .SocketError ("getaddrinfo() failed: " ++ m), .SocketError, []) := by
  unfold implSend
  rw [if_neg (by simp [hc])]
  have h1 := implConnect_resolv_fail env st m hc hr
  simp only [h1]
  rw [if_neg (by decide)]

theorem implSend_implicit_ok (env : NetEnv) (st : ImplState) (frame : List Nat)
    (rest : List AddrStep) (hc : st.connected = false)
    (hr : env.resolv = .ok (.success :: rest)) (hs : env.sendOk = true) :
    implSend env st frame = (⟨true, .Ok, ""⟩, .Ok, [frame]) := by
  unfold implSend
  rw [if_neg (by simp [hc])]
  have h1 := implConnect_first_success env st rest hc hr
  simp only [h1]
  exact implSendRaw_ok env ⟨true, .Ok, ""⟩ frame rfl hs

theorem clientCreateImageNamed_success (env : NetEnv) (st : ImplState)
    (n : String) (w h : Nat) (names : List String) (g : Bool)
    (hc : st.connected = true) (hs : env.sendOk = true)
    (hw : w ≠ 0) (hh : h ≠ 0) (hn : names ≠ []) :
    clientCreateImageNamed env st n w h names g =
      (st, .ret .Ok, [mkFrame (createImagePayload n g w h names.length names)]) := by
  unfold clientCreateImageNamed
  rw [if_neg (by omega), if_neg hn]
  rw [setCreateImage_eq n g w h names.length names rfl]
  dsimp only
  rw [implSend_connected_ok env st _ hc hs]

theorem clientUpdateImageStrided_success (env : NetEnv) (st : ImplState)
    (n : String) (x y w h : Int) (descs : List ChannelDesc) (buf : List Nat)
    (g : Bool) (hc : st.connected = true) (hs : env.sendOk = true)
    (hne : descs ≠ [])
    (hlen : buf.length = stridedImageDataSize (nPixelsOf w h) descs) :
    clientUpdateImageStrided env st n x y w h descs buf g =
      (st, .ret .Ok, [mkFrame (updateImageHeader n g descs x y w h ++
        (buf.map (fun v => toLE 4 v)).flatten)]) := by
  unfold clientUpdateImageStrided
  rw [setUpdateImage_eq n g descs x y w h buf hne, if_neg (by simpa using hlen)]
  dsimp only
  rw [implSend_connected_ok env st _ hc hs]

theorem clientCreateImageNamed_sendFail (env : NetEnv) (st : ImplState)
    (n : String) (w h : Nat) (names : List String) (g : Bool)
    (hc : st.connected = true) (hs : env.sendOk = false)
    (hw : w ≠ 0) (hh : h ≠ 0) (hn : names ≠ []) :
    clientCreateImageNamed env st n w h names g =
      (setLastErr st .SocketError "socket send() failed", .ret .SocketError,
        [mkFrame (createImagePayload n g w h names.length names)]) := by
  unfold clientCreateImageNamed
  rw [if_neg (by omega), if_neg hn]
  rw [setCreateImage_eq n g w h names.length names rfl]
  dsimp only
  rw [implSend_connected_fail env st _ hc hs]

theorem clientUpdateImageStrided_sendFail (env : NetEnv) (st : ImplState)
    (n : String) (x y w h : Int) (descs : List ChannelDesc) (buf : List Nat)
    (g : Bool) (hc : st.connected = true) (hs : env.sendOk = false)
    (hne : descs ≠ [])
    (hlen : buf.length = stridedImageDataSize (nPixelsOf w h) descs) :
    clientUpdateImageStrided env st n x y w h descs buf g =
      (setLastErr st .SocketError "socket send() failed", .ret .SocketError,
        [mkFrame (updateImageHeader n g descs x y w h ++
          (buf.map (fun v => toLE 4 v)).flatten)]) := by
  unfold clientUpdateImageStrided
  rw [setUpdateImage_eq n g descs x y w h buf hne, if_neg (by simpa using hlen)]
  dsimp only
  rw [implSend_connected_fail env st _ hc hs]

/-- C4 (amended): the operations that fail by returning through
`setLastError` overwrite the stored last error kind and message of the
session with that failure — a connect failure stores the returned
`SocketError` (verbatim `getaddrinfo() failed: ...` for a resolution
failure), a send failure stores a `SocketError` diagnostic, and a
`createImage` validation failure stores `ImageError` with its message.  A
successful operation performed while already connected returns `Ok` but
leaves the whole session state, including the stored last error,
unchanged rather than resetting it to `Ok`/empty — for every operation
(open, reload, close, create, strided update).  Only an implicit connect
resets the stored error to `Ok`/empty upon successful name resolution,
and an operation that fails by a thrown exception leaves the state
unchanged. -/
theorem C4_amended_lastError :
    (∀ env st p s g, st.connected = true → env.sendOk = true →
      clientOpenImage env st p s g = (st, .ret .Ok, [setOpenImage p s g])) ∧
    (∀ env st n g, st.connected = true → env.sendOk = true →
      clientReloadImage env st n g = (st, .ret .Ok, [setReloadImage n g])) ∧
    (∀ env st n, st.connected = true → env.sendOk = true →
      clientCloseImage env st n = (st, .ret .Ok, [setCloseImage n])) ∧
    (∀ env st n (w h : Nat) names g, st.connected = true → env.sendOk = true →
      w ≠ 0 → h ≠ 0 → names ≠ [] →
      clientCreateImageNamed env st n w h names g =
        (st, .ret .Ok, [mkFrame (createImagePayload n g w h names.length names)])) ∧
    (∀ env st n x y w h descs buf g, st.connected = true → env.sendOk = true →
      descs ≠ [] → buf.length = stridedImageDataSize (nPixelsOf w h) descs →
      clientUpdateImageStrided env st n x y w h descs buf g =
        (st, .ret .Ok, [mkFrame (updateImageHeader n g descs x y w h ++
          (buf.map (fun v => toLE 4 v)).flatten)])) ∧
    (∀ env st p s g, st.connected = true → env.sendOk = false →
      (∃ m, (clientOpenImage env st p s g).1 = setLastErr st .SocketError m) ∧
      (clientOpenImage env st p s g).2.1 = .ret .SocketError) ∧
    (∀ env st n g, st.connected = true → env.sendOk = false →
      (∃ m, (clientReloadImage env st n g).1 = setLastErr st .SocketError m) ∧
      (clientReloadImage env st n g).2.1 = .ret .SocketError) ∧
    (∀ env st n, st.connected = true → env.sendOk = false →
      (∃ m, (clientCloseImage env st n).1 = setLastErr st .SocketError m) ∧
      (clientCloseImage env st n).2.1 = .ret .SocketError) ∧
    (∀ env st n (w h : Nat) names g, st.connected = true → env.sendOk = false →
      w ≠ 0 → h ≠ 0 → names ≠ [] →
      (∃ m, (clientCreateImageNamed env st n w h names g).1 =
        setLastErr st .SocketError m) ∧
      (clientCreateImageNamed env st n w h names g).2.1 = .ret .SocketError) ∧
    (∀ env st n x y w h descs buf g, st.connected = true → env.sendOk = false →
      descs ≠ [] → buf.length = stridedImageDataSize (nPixelsOf w h) descs →
      (∃ m, (clientUpdateImageStrided env st n x y w h descs buf g).1 =
        setLastErr st .SocketError m) ∧
      (clientUpdateImageStrided env st n x y w h descs buf g).2.1 = .ret .SocketError) ∧
    (∀ env st n w h cc g, defaultChannelNames cc = none →
      (clientCreateImageDefault env st n w h cc g).1 =
        setLastErr st .ImageError "Image must have between 1 and 4 channels." ∧
      (clientCreateImageDefault env st n w h cc g).2.1 = .ret .ImageError) ∧
    (∀ env st, st.connected = false →
      (implConnect env st).1.lastError = (implConnect env st).2) ∧
    (∀ (st : ImplState) p s g m (b : Bool), st.connected = false →
      clientOpenImage ⟨.error m, b⟩ st p s g =
        (setLastErr st .SocketError ("getaddrinfo() failed: " ++ m),
          .ret .SocketError, [])) ∧
    (∀ env st rest p s g, st.connected = false →
      env.resolv = .ok (.success :: rest) → env.sendOk = true →
      clientOpenImage env st p s g =
        (⟨true, .Ok, ""⟩, .ret .Ok, [setOpenImage p s g])) ∧
    (∀ env st n x y w h descs buf g m,
      (setUpdateImage n g descs x y w h buf).2 = some m →
      (clientUpdateImageStrided env st n x y w h descs buf g).1 = st ∧
      (clientUpdateImageStrided env st n x y w h descs buf g).2.1 = .exn m) := by
  refine ⟨?_, ?_, ?_, ?_, ?_, ?_, ?_, ?_, ?_, ?_, ?_, ?_, ?_, ?_, ?_⟩
  · intro env st p s g hc hs
    unfold clientOpenImage
    rw [implSend_connected_ok env st _ hc hs]
  · intro env st n g hc hs
    unfold clientReloadImage
    rw [implSend_connected_ok env st _ hc hs]
  · intro env st n hc hs
    unfold clientCloseImage
    rw [implSend_connected_ok env st _ hc hs]
  · intro env st n w h names g hc hs hw hh hn
    exact clientCreateImageNamed_success env st n w h names g hc hs hw hh hn
  · intro env st n x y w h descs buf g hc hs hne hlen
    exact clientUpdateImageStrided_success env st n x y w h descs buf g hc hs hne hlen
  · intro env st p s g hc hs
    unfold clientOpenImage
    rw [implSend_connected_fail env st _ hc hs]
    exact ⟨⟨_, rfl⟩, rfl⟩
  · intro env st n g hc hs
    unfold clientReloadImage
    rw [implSend_connected_fail env st _ hc hs]
    exact ⟨⟨_, rfl⟩, rfl⟩
  · intro env st n hc hs
    unfold clientCloseImage
    rw [implSend_connected_fail env st _ hc hs]
    exact ⟨⟨_, rfl⟩, rfl⟩
  · intro env st n w h names g hc hs hw hh hn
    rw [clientCreateImageNamed_sendFail env st n w h names g hc hs hw hh hn]
    exact ⟨⟨_, rfl⟩, rfl⟩
  · intro env st n x y w h descs buf g hc hs hne hlen
    rw [clientUpdateImageStrided_sendFail env st n x y w h descs buf g hc hs hne hlen]
    exact ⟨⟨_, rfl⟩, rfl⟩
  · intro env st n w h cc g hcc
    unfold clientCreateImageDefault
    rw [hcc]
    exact ⟨rfl, rfl⟩
  · intro env st hc
    exact implConnect_stores env st hc
  · intro st p s g m b hc
    unfold clientOpenImage
    rw [implSend_resolv_fail ⟨.error m, b⟩ st _ m hc rfl]
  · intro env st rest p s g hc hr hs
    unfold clientOpenImage
    rw [implSend_implicit_ok env st _ rest hc hr hs]
  · intro env st n x y w h descs buf g m hm
    unfold clientUpdateImageStrided
    rcases hq : setUpdateImage n g descs x y w h buf with ⟨b, o⟩
    rw [hq] at hm
    simp only at hm
    rw [hm]
    exact ⟨rfl, rfl⟩

/-- Witness for C4 (amended): a concrete successful send that keeps the
session state, a concrete send failure that stores `SocketError`, a
concrete resolution failure that stores its verbatim message, and a
concrete implicit connect that resets a stale `ImageError` to
`Ok`/empty. -/
theorem C4_amended_lastError_witness :
    clientOpenImage ⟨.ok [.success], true⟩ ⟨true, .Ok, ""⟩ "a" "" true =
      (⟨true, .Ok, ""⟩, .ret .Ok, [setOpenImage "a" "" true]) ∧
    ((∃ m, (clientOpenImage ⟨.ok [.success], false⟩ ⟨true, .Ok, ""⟩ "a" "" true).1 =
        setLastErr ⟨true, .Ok, ""⟩ .SocketError m) ∧
      (clientOpenImage ⟨.ok [.success], false⟩ ⟨true, .Ok, ""⟩ "a" "" true).2.1 =
        .ret .SocketError) ∧
    clientOpenImage ⟨.error "host lookup failure", true⟩ ⟨false, .Ok, ""⟩ "a" "" true =
      (setLastErr ⟨false, .Ok, ""⟩ .SocketError
          ("getaddrinfo() failed: " ++ "host lookup failure"),
        .ret .SocketError, []) ∧
    clientOpenImage ⟨.ok [.success], true⟩ ⟨false, .ImageError, "stale"⟩ "a" "" true =
      (⟨true, .Ok, ""⟩, .ret .Ok, [setOpenImage "a" "" true]) :=
  ⟨C4_amended_lastError.1 ⟨.ok [.success], true⟩ ⟨true, .Ok, ""⟩ "a" "" true rfl rfl,
   C4_amended_lastError.2.2.2.2.2.1 ⟨.ok [.success], false⟩ ⟨true, .Ok, ""⟩
     "a" "" true rfl rfl,
   C4_amended_lastError.2.2.2.2.2.2.2.2.2.2.2.2.1 ⟨false, .Ok, ""⟩ "a" "" true
     "host lookup failure" true rfl,
   C4_amended_lastError.2.2.2.2.2.2.2.2.2.2.2.2.2.1 ⟨.ok [.success], true⟩
     ⟨false, .ImageError, "stale"⟩ [] "a" "" true rfl rfl rfl⟩

/-- C5 counterexample: `createImage` with `channelCount = 5` and no
explicit names returns `ImageError` (message
`"Image must have between 1 and 4 channels."`), not `ArgumentError`. -/
theorem C5_counterexample_imageError_not_argumentError :
    (clientCreateImageDefault ⟨.ok [.success], true⟩ ⟨true, .Ok, ""⟩ "i" 1 1 5 true).2.1 =
      OpResult.ret Error.ImageError ∧
    OpResult.ret Error.ImageError ≠ OpResult.ret Error.ArgumentError := by
  decide

/-- C5 (amended): `createImage` with `channelCount = 5` and no explicit
channel names fails with `ImageError` (not `ArgumentError`) before
building any frame; with 5 explicit channel names and positive dimensions
it succeeds, and the emitted frame carries exactly those 5 name strings in
the given order (the `createImagePayload` ends with the in-order
concatenation of the null-terminated names). -/
theorem C5_amended_createImage_five_channels :
    (∀ env st n w h g,
      clientCreateImageDefault env st n w h 5 g =
        (setLastErr st .ImageError "Image must have between 1 and 4 channels.",
          .ret .ImageError, [])) ∧
    (∀ env st n (w h : Nat) (names : List String) g,
      st.connected = true → env.sendOk = true →
      w ≠ 0 → h ≠ 0 → names.length = 5 →
      clientCreateImageNamed env st n w h names g =
        (st, .ret .Ok, [mkFrame (createImagePayload n g w h 5 names)])) := by
  constructor
  · intro env st n w h g
    rfl
  · intro env st n w h names g hc hs hw hh hlen
    unfold clientCreateImageNamed
    rw [if_neg (by omega), if_neg (by intro hcon; rw [hcon] at hlen; simp at hlen)]
    rw [setCreateImage_eq n g w h names.length names rfl]
    dsimp only
    rw [implSend_connected_ok env st _ hc hs, hlen]
    norm_num

/-- Witness for C5 (amended) with five explicit channel names. -/
theorem C5_amended_createImage_five_channels_witness :
    clientCreateImageNamed ⟨.ok [.success], true⟩ ⟨true, .Ok, ""⟩ "i" 2 2
        ["A", "B", "C", "D", "E"] true =
      (⟨true, .Ok, ""⟩, .ret .Ok,
        [mkFrame (createImagePayload "i" true 2 2 5 ["A", "B", "C", "D", "E"])]) :=
  C5_amended_createImage_five_channels.2 ⟨.ok [.success], true⟩ ⟨true, .Ok, ""⟩
    "i" 2 2 ["A", "B", "C", "D", "E"] true rfl rfl (by decide) (by decide) rfl

/-- C6 counterexample: a strided update whose buffer is one element short
hits the buffer-length argument check only after the 46 header bytes have
already been written into the frame buffer — not before any byte is
written, as the claim states. -/
theorem C6_counterexample_header_written_before_check :
    (setUpdateImage "i" true [⟨"R", 0, 1⟩] 0 0 1 1 []).2 =
      some "UpdateImage IPC packet data size does not match specified dimensions, offset, and stride." ∧
    (setUpdateImage "i" true [⟨"R", 0, 1⟩] 0 0 1 1 []).1.length = 46 ∧
    (46 : Nat) ≠ 0 := by
  decide

/-- C6 (amended): the `createImage` validations (positive width and
height, at least one channel, default names only up to 4 channels) run
before any frame byte is written and nothing reaches the transport; the
strided buffer-length check, however, runs only after the full packet
header has been written into the in-memory frame — though still before any
pixel byte is appended, and the exception propagates before `send`, so no
byte of the frame ever reaches the transport on any argument error. -/
theorem C6_amended_validation_order :
    (∀ env st n w h cc g, defaultChannelNames cc = none →
      clientCreateImageDefault env st n w h cc g =
        (setLastErr st .ImageError "Image must have between 1 and 4 channels.",
          .ret .ImageError, [])) ∧
    (∀ env st n h names g,
      clientCreateImageNamed env st n 0 h names g =
        (setLastErr st .ImageError "Image width and height must be greater than 0.",
          .ret .ImageError, [])) ∧
    (∀ name g descs x y w h (data : List Nat), descs ≠ [] →
      data.length ≠ stridedImageDataSize (nPixelsOf w h) descs →
      setUpdateImage name g descs x y w h data =
        (mkFrame (updateImageHeader name g descs x y w h),
          some "UpdateImage IPC packet data size does not match specified dimensions, offset, and stride.")) ∧
    (∀ env st name x y w h descs (data : List Nat) g m,
      (setUpdateImage name g descs x y w h data).2 = some m →
      clientUpdateImageStrided env st name x y w h descs data g = (st, .exn m, [])) := by
  refine ⟨?_, ?_, ?_, ?_⟩
  · intro env st n w h cc g hcc
    unfold clientCreateImageDefault
    rw [hcc]
  · intro env st n h names g
    rfl
  · intro name g descs x y w h data hne hlen
    rw [setUpdateImage_eq name g descs x y w h data hne, if_pos hlen]
  · intro env st name x y w h descs data g m hm
    unfold clientUpdateImageStrided
    rcases hq : setUpdateImage name g descs x y w h data with ⟨b, o⟩
    rw [hq] at hm
    simp only at hm
    rw [hm]

/-- Witness for C6 (amended) at a concrete short-buffer strided update. -/
theorem C6_amended_validation_order_witness :
    setUpdateImage "x" true [⟨"G", 1, 2⟩] 0 0 1 2 [0] =
      (mkFrame (updateImageHeader "x" true [⟨"G", 1, 2⟩] 0 0 1 2),
        some "UpdateImage IPC packet data size does not match specified dimensions, offset, and stride.") ∧
    clientUpdateImageStrided ⟨.ok [.success], true⟩ ⟨true, .Ok, ""⟩ "x" 0 0 1 2
        [⟨"G", 1, 2⟩] [0] true =
      (⟨true, .Ok, ""⟩,
        .exn "UpdateImage IPC packet data size does not match specified dimensions, offset, and stride.",
        []) :=
  ⟨C6_amended_validation_order.2.2.1 "x" true [⟨"G", 1, 2⟩] 0 0 1 2 [0]
      (by decide) (by decide),
    C6_amended_validation_order.2.2.2 ⟨.ok [.success], true⟩ ⟨true, .Ok, ""⟩
      "x" 0 0 1 2 [⟨"G", 1, 2⟩] [0] true _ (by decide)⟩

/-- C8: for every channel count in 1..4 the convenience (non-strided)
update path selects default descriptors with names taken in order from
R,G,B,A, offset `i` and stride `channelCount` for channel `i`, and runs
the strided update over the full region at `x = 0`, `y = 0`. -/
theorem C8_default_descriptors :
    ∀ cc : Nat, 1 ≤ cc → cc ≤ 4 →
      defaultChannelDescs cc =
        some ((List.range cc).map
          (fun i => ⟨["R", "G", "B", "A"].getD i "", (i : Int), (cc : Int)⟩)) ∧
      ∀ env st name w h buf g,
        clientUpdateImageConv env st name w h cc buf g =
          clientUpdateImageStrided env st name 0 0 w h
            ((List.range cc).map
              (fun i => ⟨["R", "G", "B", "A"].getD i "", (i : Int), (cc : Int)⟩)) buf true := by
  intro cc h1 h2
  interval_cases cc
  · exact ⟨by decide, fun env st name w h buf g => rfl⟩
  · exact ⟨by decide, fun env st name w h buf g => rfl⟩
  · exact ⟨by decide, fun env st name w h buf g => rfl⟩
  · exact ⟨by decide, fun env st name w h buf g => rfl⟩

/-- Witness for C8 at channel count 3. -/
theorem C8_default_descriptors_witness :
    defaultChannelDescs 3 =
      some ((List.range 3).map
        (fun i => ⟨["R", "G", "B", "A"].getD i "", (i : Int), (3 : Int)⟩)) ∧
    ∀ env st name w h buf g,
      clientUpdateImageConv env st name w h 3 buf g =
        clientUpdateImageStrided env st name 0 0 w h
          ((List.range 3).map
            (fun i => ⟨["R", "G", "B", "A"].getD i "", (i : Int), (3 : Int)⟩)) buf true :=
  C8_default_descriptors 3 (by decide) (by decide)

theorem nPixelsOf_eq (w h : Int) (hw : 1 ≤ w) (hh : 1 ≤ h) (hb : w * h < 2 ^ 31) :
    nPixelsOf w h = (w * h).toNat := by
  unfold nPixelsOf
  have hm : w * h % 2 ^ 64 = w * h :=
    Int.emod_eq_of_lt (by positivity) (by norm_num; omega)
  rw [show (w * h).emod (2 ^ 64) = w * h from hm]

theorem channelExtent_eq (nP : Nat) (wh : Int) (hwh : (nP : Int) = wh)
    (h1 : 1 ≤ wh) (d : ChannelDesc)
    (ho : 0 ≤ d.offset) (hs : 1 ≤ d.stride)
    (hb : d.offset + (wh - 1) * d.stride + 1 < 2 ^ 64) :
    (channelExtent nP d : Int) = d.offset + (wh - 1) * d.stride + 1 := by
  unfold channelExtent
  rw [hwh]
  have hpos : 0 ≤ d.offset + (wh - 1) * d.stride + 1 := by
    have : 0 ≤ (wh - 1) * d.stride := mul_nonneg (by omega) (by omega)
    omega
  have hm : (d.offset + (wh - 1) * d.stride + 1) % 2 ^ 64 =
      d.offset + (wh - 1) * d.stride + 1 := Int.emod_eq_of_lt hpos hb
  rw [show (d.offset + (wh - 1) * d.stride + 1).emod (2 ^ 64) =
      d.offset + (wh - 1) * d.stride + 1 from hm, Int.toNat_of_nonneg hpos]

theorem fold_extent_eq (nP : Nat) (wh : Int) (hwh : (nP : Int) = wh) (h1 : 1 ≤ wh) :
    ∀ (descs : List ChannelDesc) (a : Nat),
      (∀ d ∈ descs, 0 ≤ d.offset ∧ 1 ≤ d.stride ∧
        d.offset + (wh - 1) * d.stride + 1 < 2 ^ 64) →
      ((descs.foldl (fun acc d => max acc (channelExtent nP d)) a : Nat) : Int) =
        descs.foldl (fun acc d => max acc (d.offset + (wh - 1) * d.stride + 1)) (a : Int) := by
  intro descs
  induction descs with
  | nil => intro a _; rfl
  | cons d rest ih =>
    intro a hd
    obtain ⟨ho, hs, hb⟩ := hd d (List.mem_cons_self d rest)
    have hext : (channelExtent nP d : Int) = d.offset + (wh - 1) * d.stride + 1 :=
      channelExtent_eq nP wh hwh h1 d ho hs hb
    simp only [List.foldl_cons]
    rw [ih (max a (channelExtent nP d)) (fun x hx => hd x (List.mem_cons_of_mem d hx))]
    congr 1
    rw [Nat.cast_max, hext]

theorem requiredSize_eq_spec (descs : List ChannelDesc) (w h : Int)
    (hw : 1 ≤ w) (hh : 1 ≤ h) (hb : w * h < 2 ^ 31)
    (hd : ∀ d ∈ descs, 0 ≤ d.offset ∧ 1 ≤ d.stride ∧
      d.offset + (w * h - 1) * d.stride + 1 < 2 ^ 64) :
    ((stridedImageDataSize (nPixelsOf w h) descs : Nat) : Int) =
      specRequiredSize descs (w * h).toNat := by
  have hP : nPixelsOf w h = (w * h).toNat := nPixelsOf_eq w h hw hh hb
  have hwh : (((w * h).toNat : Nat) : Int) = w * h :=
    Int.toNat_of_nonneg (by positivity)
  unfold stridedImageDataSize specRequiredSize
  rw [hP]
  have h1 : 1 ≤ w * h := one_le_mul_of_one_le_of_one_le hw hh
  rw [fold_extent_eq (w * h).toNat (w * h) hwh h1 descs 0 hd]
  simp only [hwh, Nat.cast_zero]

/-- C1 counterexample: a strided update whose buffer is one element
shorter than required (and one whose buffer is one element longer) fails
by throwing a `std::runtime_error` that propagates out of `updateImage`;
neither returns `ArgumentError` as the claim states. -/
theorem C1_counterexample_throws_not_argumentError :
    (clientUpdateImageStrided ⟨.ok [.success], true⟩ ⟨true, .Ok, ""⟩ "i" 0 0 1 1
        [⟨"R", 0, 1⟩] [] true).2.1 =
      OpResult.exn "UpdateImage IPC packet data size does not match specified dimensions, offset, and stride." ∧
    (clientUpdateImageStrided ⟨.ok [.success], true⟩ ⟨true, .Ok, ""⟩ "i" 0 0 1 1
        [⟨"R", 0, 1⟩] [0, 0] true).2.1 =
      OpResult.exn "UpdateImage IPC packet data size does not match specified dimensions, offset, and stride." ∧
    (clientUpdateImageStrided ⟨.ok [.success], true⟩ ⟨true, .Ok, ""⟩ "i" 0 0 1 1
        [⟨"R", 0, 1⟩] [] true).2.1 ≠ OpResult.ret Error.ArgumentError ∧
    (clientUpdateImageStrided ⟨.ok [.success], true⟩ ⟨true, .Ok, ""⟩ "i" 0 0 1 1
        [⟨"R", 0, 1⟩] [0, 0] true).2.1 ≠ OpResult.ret Error.ArgumentError := by
  decide

/-- C1 (amended): over an open, willing transport and for well-bounded
descriptors (nonnegative offsets, positive strides, extents below `2^64`),
the strided `updateImage` succeeds iff the buffer length equals
`max over channels c of (offset[c] + (width*height - 1)*stride[c] + 1)`;
a buffer of any other length — in particular one element shorter or one
element longer — fails by throwing a runtime error (not by returning
`ArgumentError`), with nothing handed to the transport. -/
theorem C1_amended_strided_length :
    ∀ env st name x y (w h : Int) descs (buf : List Nat) g,
      st.connected = true → env.sendOk = true →
      descs ≠ [] → 1 ≤ w → 1 ≤ h → w * h < 2 ^ 31 →
      (∀ d ∈ descs, 0 ≤ d.offset ∧ 1 ≤ d.stride ∧
        d.offset + (w * h - 1) * d.stride + 1 < 2 ^ 64) →
      (((clientUpdateImageStrided env st name x y w h descs buf g).2.1 =
          .ret .Ok) ↔
        (buf.length : Int) = specRequiredSize descs (w * h).toNat) ∧
      ((buf.length : Int) ≠ specRequiredSize descs (w * h).toNat →
        clientUpdateImageStrided env st name x y w h descs buf g =
          (st, .exn "UpdateImage IPC packet data size does not match specified dimensions, offset, and stride.", [])) := by
  intro env st name x y w h descs buf g hc hs hne hw hh hb hd
  have hreq : ((stridedImageDataSize (nPixelsOf w h) descs : Nat) : Int) =
      specRequiredSize descs (w * h).toNat :=
    requiredSize_eq_spec descs w h hw hh hb hd
  have hiff : buf.length = stridedImageDataSize (nPixelsOf w h) descs ↔
      (buf.length : Int) = specRequiredSize descs (w * h).toNat := by
    rw [← hreq]
    exact_mod_cast Iff.rfl
  by_cases hlen : buf.length = stridedImageDataSize (nPixelsOf w h) descs
  · have hok : setUpdateImage name g descs x y w h buf =
        (mkFrame (updateImageHeader name g descs x y w h ++
          (buf.map (fun v => toLE 4 v)).flatten), none) := by
      rw [setUpdateImage_eq name g descs x y w h buf hne, if_neg (by simpa using hlen)]
    have heq : clientUpdateImageStrided env st name x y w h descs buf g =
        (st, .ret .Ok, [mkFrame (updateImageHeader name g descs x y w h ++
          (buf.map (fun v => toLE 4 v)).flatten)]) := by
      unfold clientUpdateImageStrided
      rw [hok]
      dsimp only
      rw [implSend_connected_ok env st _ hc hs]
    rw [heq]
    refine ⟨iff_of_true rfl (hiff.mp hlen), ?_⟩
    intro hcon
    exact absurd (hiff.mp hlen) hcon
  · have hbad : setUpdateImage name g descs x y w h buf =
        (mkFrame (updateImageHeader name g descs x y w h),
          some "UpdateImage IPC packet data size does not match specified dimensions, offset, and stride.") := by
      rw [setUpdateImage_eq name g descs x y w h buf hne, if_pos hlen]
    have heq : clientUpdateImageStrided env st name x y w h descs buf g =
        (st, .exn "UpdateImage IPC packet data size does not match specified dimensions, offset, and stride.", []) := by
      unfold clientUpdateImageStrided
      rw [hbad]
    refine ⟨?_, fun _ => heq⟩
    rw [heq]
    exact iff_of_false (by simp) (fun hspec => hlen (hiff.mpr hspec))

/-- Witness for C1 (amended) at a concrete 2x1 single-channel update with
a correctly sized buffer. -/
theorem C1_amended_strided_length_witness :
    (((clientUpdateImageStrided ⟨.ok [.success], true⟩ ⟨true, .Ok, ""⟩ "i" 0 0 2 1
        [⟨"R", 0, 1⟩] [5, 5] true).2.1 = .ret .Ok) ↔
      ((2 : Nat) : Int) = specRequiredSize [⟨"R", 0, 1⟩] ((2 : Int) * 1).toNat) ∧
    (((2 : Nat) : Int) ≠ specRequiredSize [⟨"R", 0, 1⟩] ((2 : Int) * 1).toNat →
      clientUpdateImageStrided ⟨.ok [.success], true⟩ ⟨true, .Ok, ""⟩ "i" 0 0 2 1
          [⟨"R", 0, 1⟩] [5, 5] true =
        (⟨true, .Ok, ""⟩,
          .exn "UpdateImage IPC packet data size does not match specified dimensions, offset, and stride.",
          [])) :=
  C1_amended_strided_length ⟨.ok [.success], true⟩ ⟨true, .Ok, ""⟩ "i" 0 0 2 1
    [⟨"R", 0, 1⟩] [5, 5] true rfl rfl (by decide) (by decide) (by decide) (by decide)
    (by
      intro d hd
      simp only [List.mem_singleton] at hd
      subst hd
      refine ⟨by decide, by decide, by decide⟩)

/-- Witness for C7 (amended) at two concrete balanced event sequences. -/
theorem C7_amended_bootstrap_witness :
    ((bootRun [.create, .create, .destroy, .destroy]).count = 0 ∧
      (bootRun [.create, .create, .destroy, .destroy]).inits =
        (bootRun [.create, .create, .destroy, .destroy]).teardowns) ∧
    bootRun (List.replicate 2 .create ++ List.replicate 2 .destroy) =
      { count := 0, inits := 1, teardowns := 1 } :=
  ⟨C7_amended_bootstrap.1 [.create, .create, .destroy, .destroy]
      (by
        intro n
        match n with
        | 0 => decide
        | 1 => decide
        | 2 => decide
        | 3 => decide
        | k + 4 =>
          rw [List.take_of_length_le (by simp only [List.length_cons, List.length_nil]; omega)]
          decide)
      (by decide),
    C7_amended_bootstrap.2 2 (by decide)⟩

end Tev
